import Mathlib

/-!
Shallow embedding of the coredump-parser crate (src/lib.rs) and proofs about it.

Bytes are modelled as `List Nat` (each element a byte value). Machine `u64`
values are `Nat`; where the source performs `u64` arithmetic that can wrap
(the `number_of_entries * 24` offset computation), the embedding reduces
modulo `2 ^ 64` explicitly. Fallible collaborator calls (file reads, the
object crate parsers, cursor reads) are modelled as `Except`/`Option`
inputs or results. The `todo!` panic in `symbolicate_notes` is modelled by
a dedicated `Outcome.panic` constructor, since it is neither an `Ok` nor an
`Err` return.
-/

namespace CoredumpParser

/-- Byte order of a machine or of an ELF container. -/
inductive Endianness where
  | little
  | big
deriving DecidableEq, Repr

/-- The closed error enumeration `CoredumpError` from src/lib.rs. -/
inductive CoredumpError where
  | FileFormatNotSupported
  | MissingDataSection
  | SymbolizationFailed
  | NotCoreFile
deriving DecidableEq, Repr

/-- A `Box<dyn Error>` value as it flows through the crate: either one of the
crate.s own `CoredumpError` values, or an error produced by a collaborator
(std io errors from cursor reads and file reads, or errors of the object
crate). The distinction matters because the source propagates collaborator
errors with `?` without converting them to `CoredumpError`. -/
inductive PipelineError where
  | ioError
  | objError
  | coredump (e : CoredumpError)
deriving DecidableEq, Repr

/-- `Stackframe` from src/lib.rs: one decoded mapped-file record. The path is
kept as its byte sequence (`String::from_utf8_lossy` is the identity on the
ASCII paths all claims use). -/
structure Stackframe where
  start : Nat
  «end» : Nat
  offset : Nat
  name : List Nat
deriving DecidableEq, Repr

/-- `CoredumpNotesHeader` from src/lib.rs: the decoded mapping table. -/
structure CoredumpNotesHeader where
  page_size : Nat
  frames : List Stackframe
deriving DecidableEq, Repr

/-- `Cursor::read_u64::<NativeEndian>` at byte position `pos` of `desc`:
`none` models the io error raised when fewer than 8 bytes remain. -/
def readU64 (e : Endianness) (desc : List Nat) (pos : Nat) : Option Nat :=
  if pos + 8 ≤ desc.length then
    let b := fun i => desc.getD (pos + i) 0
    some (match e with
      | .little =>
        b 0 + 256 * (b 1 + 256 * (b 2 + 256 * (b 3 + 256 *
          (b 4 + 256 * (b 5 + 256 * (b 6 + 256 * b 7))))))
      | .big =>
        b 7 + 256 * (b 6 + 256 * (b 5 + 256 * (b 4 + 256 *
          (b 3 + 256 * (b 2 + 256 * (b 1 + 256 * b 0)))))))
  else none

/-- `BufRead::split(0)` over the remaining bytes of a cursor: the NUL-delimited
segments, without the delimiter, and without a trailing empty segment when the
data ends in a NUL byte (a final unterminated segment is still yielded). -/
def splitOnNul : List Nat → List (List Nat)
  | [] => []
  | b :: rest =>
    if b = 0 then [] :: splitOnNul rest
    else
      match splitOnNul rest with
      | [] => [[b]]
      | seg :: segs => (b :: seg) :: segs

/-- `2 ^ 64`, the modulus of `u64` arithmetic. -/
def U64MOD : Nat := 2 ^ 64

/-- The loop body of `parse_backtrace_notes`: for each NUL-delimited name, in
order, read a `(start, end, offset)` triple of u64 values from the fixed-record
cursor (positions `pos`, `pos + 8`, `pos + 16`), failing with the io error of
the first read that runs past the buffer end. -/
def readRecords (native : Endianness) (desc : List Nat) :
    Nat → List (List Nat) → Except PipelineError (List Stackframe)
  | _, [] => .ok []
  | pos, name :: names =>
    match readU64 native desc pos, readU64 native desc (pos + 8),
        readU64 native desc (pos + 16) with
    | some s, some e, some o =>
      match readRecords native desc (pos + 24) names with
      | .ok fs => .ok ({ start := s, «end» := e, offset := o, name := name } :: fs)
      | .error err => .error err
    | _, _, _ => .error .ioError

/-- `parse_backtrace_notes` from src/lib.rs. All numeric reads use
`NativeEndian`, i.e. the byte order `native` of the machine running the code;
the `containerEndian` parameter mirrors the `endian: Elf::Endian` argument of
the source, which is never used. The string cursor starts at
`16 + number_of_entries * 24` (u64 wrapping arithmetic), and one record is
read per NUL-delimited name found there. -/
def parse_backtrace_notes (native containerEndian : Endianness)
    (desc : List Nat) : Except PipelineError CoredumpNotesHeader :=
  match readU64 native desc 0, readU64 native desc 8 with
  | some number_of_entries, some page_size =>
    let strStart := (16 + number_of_entries * 24 % U64MOD) % U64MOD
    let names := splitOnNul (desc.drop strStart)
    match readRecords native desc 16 names with
    | .ok frames => .ok { page_size := page_size, frames := frames }
    | .error e => .error e
  | _, _ => .error .ioError

/-- `ET_CORE` from the elf constants: the core-dump file type. -/
def ET_CORE : Nat := 4

/-- `PT_NOTE` from the elf constants: the note program-header type. -/
def PT_NOTE : Nat := 4

/-- `NT_FILE` from the elf constants: the mapped-files note type. -/
def NT_FILE : Nat := 0x46494c45

/-- A note as produced by the object crate: its type code and descriptor bytes. -/
structure ElfNote where
  n_type : Nat
  desc : List Nat
deriving DecidableEq, Repr

/-- A program header as the scanner sees it: its `p_type`, and the outcome of
`header.notes(endian, data)` followed by iteration. The stream is the sequence
of `notes.next()` results: `.ok nt` for a yielded note, `.error ()` for an
iteration error (which stops the `while let Ok(Some(..))` loop); the list end
models `Ok(None)`. `.error ()` at the outer level models a failed
`header.notes` call, `.ok none` models `Ok(None)` from it. -/
instance {ε α : Type} [DecidableEq ε] [DecidableEq α] : DecidableEq (Except ε α) :=
  fun a b => by
    cases a <;> cases b
    case ok.ok x y =>
      exact if h : x = y then .isTrue (by rw [h]) else .isFalse (by simp [h])
    case error.error x y =>
      exact if h : x = y then .isTrue (by rw [h]) else .isFalse (by simp [h])
    all_goals exact .isFalse (by simp)

structure Phdr where
  p_type : Nat
  notes : Except Unit (Option (List (Except Unit ElfNote)))
deriving DecidableEq

/-- The parsed ELF structure `read_frames` works over: the outcome of
`Elf::parse` plus `elf.endian()` is an `Except Unit ElfFile` fed to
`read_frames`; `phdrs` holds the outcome of `elf.program_headers(..)`. -/
structure ElfFile where
  e_type : Nat
  endian : Endianness
  phdrs : Except Unit (List Phdr)
deriving DecidableEq

/-- The inner `while let Ok(Some(note)) = notes.next()` loop of `read_frames`:
the first yielded note whose type is `NT_FILE`, scanning in iteration order and
stopping at the first iteration error or at the end of the stream. -/
def firstFileNote : List (Except Unit ElfNote) → Option ElfNote
  | [] => none
  | .error _ :: _ => none
  | .ok nt :: rest => if nt.n_type = NT_FILE then some nt else firstFileNote rest

/-- The program-header loop of `read_frames`: headers in file order; a header
whose type is `PT_NOTE` and whose note iterator is `Ok(Some(..))` is searched
for an `NT_FILE` note; the first match is decoded by `parse_backtrace_notes`
(whose error, if any, propagates) and scanning stops; otherwise the scan moves
on, failing with `MissingDataSection` after the last header. -/
def scanHeaders (native ce : Endianness) : List Phdr → Except PipelineError CoredumpNotesHeader
  | [] => .error (.coredump .MissingDataSection)
  | h :: rest =>
    if h.p_type = PT_NOTE then
      match h.notes with
      | .ok (some stream) =>
        match firstFileNote stream with
        | some nt => parse_backtrace_notes native ce nt.desc
        | none => scanHeaders native ce rest
      | _ => scanHeaders native ce rest
    else scanHeaders native ce rest

/-- `read_frames` from src/lib.rs: fail if `Elf::parse` or `elf.endian()`
failed, then reject any file whose `e_type` is not `ET_CORE`, then scan the
program headers for the mapped-files note. -/
def read_frames (native : Endianness) (parsed : Except Unit ElfFile) :
    Except PipelineError CoredumpNotesHeader :=
  match parsed with
  | .error _ => .error .objError
  | .ok elf =>
    if elf.e_type ≠ ET_CORE then .error (.coredump .NotCoreFile)
    else
      match elf.phdrs with
      | .error _ => .error .objError
      | .ok hs => scanHeaders native elf.endian hs

/-- One frame of the final stack trace (`sentry_backtrace::Frame`); never
constructed by the source, so only its existence matters here. -/
structure Frame where
  addr : Nat
deriving DecidableEq, Repr

/-- `sentry_backtrace::Stacktrace`, the report record. -/
structure Stacktrace where
  registers : List (String × Nat)
  frames : List Frame
  frames_omitted : Option Nat
deriving DecidableEq, Repr

/-- The outcome of running a function that may return `Ok`, return `Err`, or
panic. `panic` models the `todo!` macro, which diverges instead of returning. -/
inductive Outcome (α : Type) where
  | ok (value : α)
  | err (e : PipelineError)
  | panic
deriving DecidableEq, Repr

/-- Whether an outcome is a successful return. -/
def Outcome.isOk {α : Type} : Outcome α → Bool
  | .ok _ => true
  | _ => false

/-- `symbolicate_notes` from src/lib.rs: its body begins with a `todo!`
invocation (message: Symbolize me!), so every call panics; the
`Err(CoredumpError::SymbolizationFailed)` line after it is unreachable. -/
def symbolicate_notes (notes : CoredumpNotesHeader) : Outcome (List Frame) :=
  .panic

/-- The container kinds `object::FileKind::parse` can recognize, as the match
in `parse_coredump` distinguishes them: 32-bit ELF, 64-bit ELF, or any other
recognized kind (the `_` arm). -/
inductive FileKind where
  | elf32
  | elf64
  | other
deriving DecidableEq, Repr

/-- The `Ok(Stacktrace { .. })` literal at the end of `parse_coredump`:
registers are `BTreeMap::new()`, frames are `Vec::new()` (the bound `frames`
variable is not used), and `frames_omitted` is `None`. -/
def assembleReport (frames : List Frame) : Stacktrace :=
  { registers := [], frames := [], frames_omitted := none }

/-- `parse_coredump` from src/lib.rs. Collaborator outcomes on the file at the
given path are inputs: `bin_data` is the result of `fs::read`, `file_kind` of
`object::FileKind::parse` over those bytes (`.error` = unrecognized bytes),
and `parsed` of `Elf::parse` plus `elf.endian()` inside `read_frames`.
Errors of collaborators propagate via `?` as themselves. -/
def parse_coredump (native : Endianness) (bin_data : Except Unit (List Nat))
    (file_kind : Except Unit FileKind) (parsed : Except Unit ElfFile) :
    Outcome Stacktrace :=
  match bin_data with
  | .error _ => .err .ioError
  | .ok _ =>
    match file_kind with
    | .error _ => .err .objError
    | .ok k =>
      let notesRes :=
        match k with
        | .elf64 => read_frames native parsed
        | .elf32 => read_frames native parsed
        | .other => .error (.coredump .FileFormatNotSupported)
      match notesRes with
      | .error e => .err e
      | .ok notes =>
        match symbolicate_notes notes with
        | .ok frames => .ok (assembleReport frames)
        | .err e => .err e
        | .panic => .panic

/-! ## Concrete inputs used by the theorems -/

/-- The 8-byte encoding of `v` in byte order `e`. -/
def enc64 (e : Endianness) (v : Nat) : List Nat :=
  let b := fun i => v / 256 ^ i % 256
  match e with
  | .little => [b 0, b 1, b 2, b 3, b 4, b 5, b 6, b 7]
  | .big => [b 7, b 6, b 5, b 4, b 3, b 2, b 1, b 0]

/-- The bytes of the path string slash bin slash a. -/
def binA : List Nat := [47, 98, 105, 110, 47, 97]

/-- The bytes of the path string slash lib slash b dot so. -/
def libB : List Nat := [47, 108, 105, 98, 47, 98, 46, 115, 111]

/-- The two-entry mapped-file note descriptor of the spec test vector, with
its numeric fields encoded in byte order `e`: entry count 2, page size 4096,
fixed records (0x1000, 0x2000, 0x0) and (0x5000, 0x6000, 0x500), then the two
NUL-terminated path strings. -/
def c1desc (e : Endianness) : List Nat :=
  enc64 e 2 ++ enc64 e 4096 ++
  enc64 e 0x1000 ++ enc64 e 0x2000 ++ enc64 e 0 ++
  enc64 e 0x5000 ++ enc64 e 0x6000 ++ enc64 e 0x500 ++
  binA ++ [0] ++ libB ++ [0]

/-- The mapping table the spec test vector should decode to. -/
def c1table : CoredumpNotesHeader :=
  { page_size := 4096,
    frames := [
      { start := 0x1000, «end» := 0x2000, offset := 0, name := binA },
      { start := 0x5000, «end» := 0x6000, offset := 0x500, name := libB }] }

/-- A truncated descriptor: entry count 2 and page size 4096 (little-endian),
and nothing else — 16 bytes in total, far short of the 64-byte minimum
`16 + 2 * 24`, and with zero recoverable path strings. -/
def c3desc : List Nat := enc64 .little 2 ++ enc64 .little 4096

/-- A core-type parsed ELF whose second program header is a `PT_NOTE` segment
holding a non-matching note and then the mapped-files note with the test
vector descriptor; a further `PT_NOTE` header holds a later `NT_FILE` note
that a first-match scan must not reach. -/
def hsW : List Phdr :=
  [{ p_type := 1, notes := .ok none },
   { p_type := PT_NOTE,
     notes := .ok (some [.ok { n_type := 1, desc := [] },
                         .ok { n_type := NT_FILE, desc := c1desc .little }]) },
   { p_type := PT_NOTE,
     notes := .ok (some [.ok { n_type := NT_FILE, desc := c3desc }]) }]

/-- A parsed core-dump ELF built over `hsW`. -/
def elfW : ElfFile := { e_type := ET_CORE, endian := .little, phdrs := .ok hsW }

/-- A parsed ELF of executable type (`e_type = 2`, not `ET_CORE`), whose
program headers nevertheless contain a decodable mapped-files note. -/
def elfExec : ElfFile :=
  { e_type := 2, endian := .little,
    phdrs := .ok [{ p_type := PT_NOTE,
                    notes := .ok (some [.ok { n_type := NT_FILE,
                                              desc := c1desc .little }]) }] }

/-! ## Theorems for the claims -/

/-- C1: decoding a mapped-file note descriptor that encodes entry count 2 at
offset 0, a page size at offset 8, the 24-byte fixed records
(0x1000, 0x2000, 0x0) and (0x5000, 0x6000, 0x500) from offset 16, then the
NUL-terminated paths, yields exactly two entries carrying those values in that
order, each fixed record zipped with the path of the same index. -/
theorem mapped_file_note_decodes (e : Endianness) :
    parse_backtrace_notes e e (c1desc e) = .ok c1table := by
  cases e <;> rfl

/-- C2 counterexample: the same descriptor, under the same container-declared
endianness (little), decodes to different logical values on a little-endian
machine and on a big-endian machine, so decoding is not machine-independent
and does not follow the byte order the container declares. -/
theorem endianness_machine_dependent_counterexample :
    parse_backtrace_notes .little .little (c1desc .little) ≠
      parse_backtrace_notes .big .little (c1desc .little) := by decide

/-- C2 (amended): the Mapping Decoder interprets every numeric field in the
byte order of the machine running the decode; the container-declared
endianness argument is ignored, so a descriptor whose fields are encoded in
the host byte order decodes to the intended values whatever endianness the
container declares. -/
theorem decoder_uses_native_order (native containerE : Endianness) :
    parse_backtrace_notes native containerE (c1desc native) = .ok c1table := by
  cases native <;> rfl

/-- C3 counterexample: a 16-byte descriptor declaring entry count 2 — shorter
than the computed minimum `16 + 2 * 24 = 64` and with zero recoverable path
strings — is not rejected: decoding returns success with an empty table, a
partially-populated table with fewer than entry count entries. -/
theorem truncated_note_accepted_counterexample :
    readU64 .little c3desc 0 = some 2 ∧ c3desc.length = 16 ∧
      parse_backtrace_notes .little .little c3desc =
        .ok { page_size := 4096, frames := [] } := by
  refine ⟨rfl, rfl, rfl⟩

/-- C3 (amended): decoding fails with an error only when a numeric read runs
past the buffer end; in particular every descriptor shorter than the 16-byte
fixed header is rejected. A descriptor shorter than `16 + entry_count * 24`
bytes, or carrying fewer than entry count path strings, is not rejected:
decoding succeeds with one entry per recovered string, possibly fewer than
entry count, even zero. -/
theorem short_header_read_fails (native containerE : Endianness)
    (desc : List Nat) (h : desc.length < 16) :
    parse_backtrace_notes native containerE desc = .error .ioError := by
  have h8 : readU64 native desc 8 = none := by
    unfold readU64
    rw [if_neg]
    omega
  unfold parse_backtrace_notes
  rw [h8]
  cases readU64 native desc 0 <;> rfl

/-- Witness for `short_header_read_fails` at a concrete 3-byte descriptor. -/
theorem short_header_read_fails_witness :
    ([5, 6, 7] : List Nat).length < 16 ∧
      parse_backtrace_notes .little .little [5, 6, 7] = .error .ioError :=
  ⟨by decide, short_header_read_fails .little .little [5, 6, 7] (by decide)⟩

/-- C4: a parsed 32- or 64-bit ELF whose file-type field is not `ET_CORE`
makes the pipeline fail with `NotCoreFile`, and the check precedes all
program-header and note scanning: the result is `NotCoreFile` for every value
of the program-header table, so no note is ever inspected. -/
theorem not_core_checked_first (native : Endianness) (elf : ElfFile)
    (h : elf.e_type ≠ ET_CORE) :
    read_frames native (.ok elf) = .error (.coredump .NotCoreFile) ∧
      ∀ (b : List Nat) (k : FileKind), k ≠ .other →
        parse_coredump native (.ok b) (.ok k) (.ok elf) =
          .err (.coredump .NotCoreFile) := by
  have hrf : read_frames native (.ok elf) = .error (.coredump .NotCoreFile) := by
    simp [read_frames, h]
  refine ⟨hrf, ?_⟩
  intro b k hk
  cases k with
  | elf32 => simp [parse_coredump, hrf]
  | elf64 => simp [parse_coredump, hrf]
  | other => exact absurd rfl hk

/-- Witness for `not_core_checked_first`: an executable-type ELF whose
program headers do contain a decodable mapped-files note still yields
`NotCoreFile`, both from the scanner and from the whole pipeline. -/
theorem not_core_checked_first_witness :
    elfExec.e_type ≠ ET_CORE ∧
      (read_frames .little (.ok elfExec) = .error (.coredump .NotCoreFile) ∧
        ∀ (b : List Nat) (k : FileKind), k ≠ .other →
          parse_coredump .little (.ok b) (.ok k) (.ok elfExec) =
            .err (.coredump .NotCoreFile)) :=
  ⟨by decide, not_core_checked_first .little elfExec (by decide)⟩

/-- C5 counterexample: bytes that no container kind recognizes make
`FileKind::parse` fail, and that failure propagates as the object-crate error
itself, which is a different error value than
`CoredumpError::FileFormatNotSupported` — refuting the claim that every
unrecognized input fails with `FileFormatNotSupported`. -/
theorem unknown_format_error_counterexample :
    parse_coredump .little (.ok [1, 2, 3]) (.error ()) (.error ()) = .err .objError ∧
      (Outcome.err .objError : Outcome Stacktrace) ≠
        .err (.coredump .FileFormatNotSupported) :=
  ⟨rfl, by decide⟩

/-- C5 (amended): bytes recognized as a container kind other than 32- or
64-bit ELF fail with `FileFormatNotSupported`; bytes not recognized as any
container kind instead fail with the format-detection collaborator error
propagated as-is, which is not `FileFormatNotSupported`. -/
theorem recognized_non_elf_not_supported (native : Endianness)
    (bytes : List Nat) (parsed : Except Unit ElfFile) :
    parse_coredump native (.ok bytes) (.ok .other) parsed =
      .err (.coredump .FileFormatNotSupported) := rfl

/-- The selection the Note Scanner is specified to make: per header in file
order, for a `PT_NOTE` header with a constructed note iterator, the first
`NT_FILE` note of its iteration prefix; over the list, the first header that
yields one. -/
def headerFileNote (h : Phdr) : Option ElfNote :=
  if h.p_type = PT_NOTE then
    match h.notes with
    | .ok (some stream) => firstFileNote stream
    | _ => none
  else none

/-- First mapped-files note over the whole program-header table, in scan
order. -/
def selectedNote : List Phdr → Option ElfNote
  | [] => none
  | h :: rest =>
    match headerFileNote h with
    | some nt => some nt
    | none => selectedNote rest

theorem scanHeaders_eq_selected (native ce : Endianness) (hs : List Phdr) :
    scanHeaders native ce hs =
      match selectedNote hs with
      | none => .error (.coredump .MissingDataSection)
      | some nt => parse_backtrace_notes native ce nt.desc := by
  induction hs with
  | nil => rfl
  | cons h rest ih =>
    simp only [scanHeaders, selectedNote, headerFileNote]
    by_cases hp : h.p_type = PT_NOTE
    · simp only [hp, if_true]
      cases hnotes : h.notes with
      | error e => simp [ih]
      | ok o =>
        cases o with
        | none => simp [ih]
        | some stream =>
          cases hffn : firstFileNote stream with
          | none => simp [hffn, ih]
          | some nt => simp [hffn]
    · simp [hp, ih]

/-- C6: for a parsed core-type ELF, the scan fails with `MissingDataSection`
exactly when no `PT_NOTE` header yields an `NT_FILE` note during iteration;
when one exists, the first such note — headers in file order, notes in
iteration order — is the one decoded, and nothing after it is reached. -/
theorem scanner_first_match (native : Endianness) (elf : ElfFile)
    (hs : List Phdr) (hcore : elf.e_type = ET_CORE) (hph : elf.phdrs = .ok hs) :
    read_frames native (.ok elf) =
      match selectedNote hs with
      | none => .error (.coredump .MissingDataSection)
      | some nt => parse_backtrace_notes native elf.endian nt.desc := by
  simp [read_frames, hcore, hph, scanHeaders_eq_selected]

/-- Witness for `scanner_first_match`: on `elfW` the second header holds the
first `NT_FILE` note, whose descriptor decodes to `c1table`. -/
theorem scanner_first_match_witness :
    elfW.e_type = ET_CORE ∧ elfW.phdrs = .ok hsW ∧
      read_frames .little (.ok elfW) = .ok c1table :=
  ⟨rfl, rfl, (scanner_first_match .little elfW hsW rfl rfl).trans (by rfl)⟩

/-- C7: the symbolication stage never returns at all — for every decoded
notes header, `symbolicate_notes` hits `todo!` and panics, so it neither
produces the empty frame sequence the claim requires for empty input nor any
error value. -/
theorem symbolicate_always_panics (notes : CoredumpNotesHeader) :
    symbolicate_notes notes = .panic := rfl

/-- C8: on a core file whose mapped-files note decodes, the pipeline panics
inside symbolication — yielding neither a report nor a single error value —
and the success-path assembly of the report hardcodes an empty frame list,
discarding whatever frame sequence symbolication would produce. -/
theorem assembler_discards_frames :
    parse_coredump .little (.ok []) (.ok .elf32) (.ok elfW) = .panic ∧
      (assembleReport [{ addr := 1 }]).frames = [] :=
  ⟨rfl, rfl⟩

/-- C9: `symbolicate_notes` panics instead of returning frames or
`SymbolizationFailed`; consequently no invocation of `parse_coredump` ever
returns a successful `StacktraceReport`, and the panic is reached on any
input whose mapped-files note decodes, such as `elfW`. -/
theorem symbolication_panics_no_report :
    (∀ (native : Endianness) (b : Except Unit (List Nat))
        (k : Except Unit FileKind) (p : Except Unit ElfFile),
        (parse_coredump native b k p).isOk = false) ∧
      parse_coredump .little (.ok []) (.ok .elf64) (.ok elfW) = .panic := by
  constructor
  · intro native b k p
    cases b with
    | error e => rfl
    | ok bytes =>
      cases k with
      | error e => rfl
      | ok kind =>
        cases kind <;>
          first
          | rfl
          | (simp only [parse_coredump]
             cases read_frames native p <;> rfl)
  · rfl

theorem firstFileNote_append_error (pre post : List (Except Unit ElfNote))
    (h : ∀ nt : ElfNote, Except.ok nt ∈ pre → nt.n_type ≠ NT_FILE) :
    firstFileNote (pre ++ Except.error () :: post) = none := by
  induction pre with
  | nil => rfl
  | cons x rest ih =>
    cases x with
    | error e => rfl
    | ok nt =>
      have hnt : nt.n_type ≠ NT_FILE := h nt (by simp)
      simp only [List.cons_append, firstFileNote, if_neg hnt]
      exact ih fun m hm => h m (List.mem_cons_of_mem _ hm)

/-- C10: a `PT_NOTE` header whose note iterator cannot be constructed, or
whose iteration hits an error before any `NT_FILE` note, contributes nothing:
the scan of the remaining headers proceeds exactly as if the header were
absent — so a matching note in a later segment is still decoded, and
`MissingDataSection` results only when no header ever yields a match. -/
theorem note_iteration_failure_skipped (native ce : Endianness) (h : Phdr)
    (rest : List Phdr) (pre post : List (Except Unit ElfNote))
    (hpt : h.p_type = PT_NOTE)
    (hbad : h.notes = .error () ∨
      (h.notes = .ok (some (pre ++ Except.error () :: post)) ∧
        ∀ nt : ElfNote, Except.ok nt ∈ pre → nt.n_type ≠ NT_FILE)) :
    scanHeaders native ce (h :: rest) = scanHeaders native ce rest := by
  rcases hbad with herr | ⟨hstream, hpre⟩
  · simp [scanHeaders, hpt, herr]
  · simp [scanHeaders, hpt, hstream, firstFileNote_append_error pre post hpre]

/-- A `PT_NOTE` header whose iteration errors immediately, before reaching
the `NT_FILE` note that sits after the error in its stream. -/
def badHdr : Phdr :=
  { p_type := PT_NOTE,
    notes := .ok (some [Except.error (),
                        .ok { n_type := NT_FILE, desc := c1desc .little }]) }

/-- A `PT_NOTE` header whose first note is a decodable `NT_FILE` note. -/
def goodHdr : Phdr :=
  { p_type := PT_NOTE,
    notes := .ok (some [.ok { n_type := NT_FILE, desc := c1desc .little }]) }

/-- Witness for `note_iteration_failure_skipped`: the failing segment is
skipped and the valid note of the following segment still decodes. -/
theorem note_iteration_failure_skipped_witness :
    badHdr.p_type = PT_NOTE ∧
      (scanHeaders .little .little [badHdr, goodHdr] =
        scanHeaders .little .little [goodHdr] ∧
       scanHeaders .little .little [goodHdr] = .ok c1table) :=
  ⟨rfl,
   note_iteration_failure_skipped .little .little badHdr [goodHdr] []
     [.ok { n_type := NT_FILE, desc := c1desc .little }] rfl
     (Or.inr ⟨rfl, fun nt hm => absurd hm (List.not_mem_nil _)⟩),
   by rfl⟩

end CoredumpParser
